import Mathlib

/-!
Shallow embedding of the booking-and-availability core of the hotel-gui
application (src/date_service.py, src/room_service.py, src/booking_service.py,
src/records_service.py, src/database_service.py).

Modelling conventions:
* Calendar dates are modelled by their integer day ordinal (`Date := Int`):
  Python `date` comparison, `date` subtraction in days, and SQLite comparison
  of ISO `YYYY-MM-DD` strings all agree with the order and difference of day
  ordinals.
* Python floats are modelled as exact rationals (`ℚ`).
* The SQLite store is a record of the four tables created by
  `DatabaseService._create_tables`.  `execute_query` swallows `sqlite3.Error`
  (it logs, rolls back and falls through, returning `None`), so inserts are
  modelled as returning `Option Nat` (the `lastrowid`), with an explicit
  failure flag standing for a SQL error at that call site; `fetch_query`
  likewise returns `None` on a SQL error, modelled by read-failure flags.
* The `NOT NULL` column constraints of the schema are enforced by the insert
  models: inserting a `NULL` foreign key raises `sqlite3.IntegrityError`,
  which `execute_query` also swallows, so such an insert writes nothing and
  returns `none`.
* Python exceptions that a function lets escape are modelled by `Option`
  results (`none` = the call raised); functions that catch everything are
  total.
-/

namespace HotelGui

/-- A calendar date, identified with its day ordinal. -/
abbrev Date := Int

/-! ## DateService (src/date_service.py) -/

/-- Embeds `DateService.validate_dates` (src/date_service.py:57-82).
`today` is the value of `date.today()` at the call.  Returns the
`(bool, message)` pair the Python method returns. -/
def validate_dates (today checkin checkout : Date) : Bool × String :=
  if checkin < today then (false, "Check-in date cannot be in the past")
  else if checkout ≤ checkin then (false, "Check-out date must be after check-in date")
  else if checkout - checkin > 30 then (false, "Maximum stay is 30 days")
  else (true, "")

/-! ## Database state (src/database_service.py) -/

/-- A row of the `customers` table. -/
structure CustomerRow where
  id : Nat
  name : String
  phone : String
  address : String
deriving DecidableEq

/-- A row of the `room_types` table. -/
structure RoomTypeRow where
  room_type : String
  price : ℚ
  capacity : Int
  description : String
deriving DecidableEq

/-- A row of the `bookings` table.  `customer_id` is `Option` because
`execute_query` returns `None` after a swallowed SQL error and
`BookingService.process_booking` passes that value straight through. -/
structure BookingRow where
  id : Nat
  customer_id : Option Nat
  room_type : String
  checkin_date : Date
  checkout_date : Date
  status : String
deriving DecidableEq

/-- A row of the `payments` table. -/
structure PaymentRow where
  id : Nat
  booking_id : Option Nat
  amount : ℚ
  payment_method : String
  status : String
deriving DecidableEq

/-- The four tables created by `DatabaseService._create_tables`. -/
structure DBState where
  customers : List CustomerRow
  room_types : List RoomTypeRow
  bookings : List BookingRow
  payments : List PaymentRow
deriving DecidableEq

/-- Read-failure flags: one per `fetch_query` call site reachable from the
operations modelled here.  `true` means that call hits a `sqlite3.Error`
(so `fetch_query` logs it and returns `None`). -/
structure ReadFailures where
  capacity_read_fails : Bool
  bookings_read_fails : Bool
  price_read_fails : Bool
deriving DecidableEq

/-- All reads succeed. -/
def noReadFailures : ReadFailures := ⟨false, false, false⟩

/-- Write-failure flags: one per `execute_query` insert in
`BookingService.process_booking`.  `true` means that statement hits a
`sqlite3.Error` (swallowed by `execute_query`, which returns `None`). -/
structure WriteFailures where
  customer_insert_fails : Bool
  booking_insert_fails : Bool
  payment_insert_fails : Bool
deriving DecidableEq

/-- All writes succeed. -/
def noWriteFailures : WriteFailures := ⟨false, false, false⟩

/-- `SELECT ... FROM room_types WHERE room_type = ?` (unique key, so at most
one row). -/
def find_room_type (db : DBState) (rt : String) : Option RoomTypeRow :=
  db.room_types.find? (fun r => r.room_type == rt)

/-- Embeds `RoomService.get_room_capacity` (src/room_service.py:136-153): the
result of the capacity lookup, `none` when the method raises (unknown room
type, or the underlying fetch failed and returned `None`). -/
def get_room_capacity (db : DBState) (fetchFails : Bool) (rt : String) : Option Int :=
  if fetchFails then none
  else (find_room_type db rt).map (fun r => r.capacity)

/-- Embeds `RoomService.get_room_price` (src/room_service.py:117-134): the
result of the price lookup, `none` when the method raises (unknown room type,
or the underlying fetch failed and returned `None`). -/
def get_room_price (db : DBState) (fetchFails : Bool) (rt : String) : Option ℚ :=
  if fetchFails then none
  else (find_room_type db rt).map (fun r => r.price)

/-- The seed rows inserted by `DatabaseService._create_tables`
(src/database_service.py:184-191). -/
def seed_room_types : List RoomTypeRow :=
  [⟨"Single", 100, 20, "A cozy room with a single bed"⟩,
   ⟨"Double", 150, 20, "Comfortable room with a double bed"⟩,
   ⟨"Suite", 250, 20, "Luxury suite with separate living area"⟩,
   ⟨"Family", 300, 20, "Spacious room for family stays"⟩]

/-- A freshly initialised store: the seeded room types, no other rows. -/
def seed_db : DBState := ⟨[], seed_room_types, [], []⟩

/-! ## RoomService (src/room_service.py) -/

/-- The three-disjunct overlap test in the SQL of
`RoomService.is_room_available` (src/room_service.py:181-185), applied to an
existing booking `[eci, eco)` and the requested range `[rci, rco)`. -/
def sql_overlaps (eci eco rci rco : Date) : Bool :=
  (decide (eci ≤ rci) && decide (eco > rci)) ||
  (decide (eci < rco) && decide (eco ≥ rco)) ||
  (decide (eci ≥ rci) && decide (eco ≤ rco))

/-- The `COUNT(*)` of the SQL in `RoomService.is_room_available`: bookings of
this room type with stored status 'active' whose range overlaps the requested
one under `sql_overlaps`. -/
def overlapping_count (db : DBState) (rt : String) (ci co : Date) : Nat :=
  (db.bookings.filter (fun b =>
    b.room_type == rt && b.status == "active" &&
      sql_overlaps b.checkin_date b.checkout_date ci co)).length

/-- Embeds `RoomService.is_room_available` (src/room_service.py:155-206).
Every exception path (failed date validation, capacity lookup raising,
bookings fetch returning `None`) returns `false`; otherwise the count of
overlapping active bookings is compared with the capacity. -/
def is_room_available (db : DBState) (rf : ReadFailures) (today : Date)
    (rt : String) (ci co : Date) : Bool :=
  if (validate_dates today ci co).1 = false then false
  else
    match get_room_capacity db rf.capacity_read_fails rt with
    | none => false
    | some capacity =>
      if rf.bookings_read_fails then false
      else decide ((overlapping_count db rt ci co : Int) < capacity)

/-- The dictionary returned by `RoomService.calculate_total_bill`
(src/room_service.py:208-233). -/
structure BillBreakdown where
  price_per_night : ℚ
  nights : Int
  room_charge : ℚ
  tax : ℚ
  service_charge : ℚ
  total : ℚ
deriving DecidableEq

/-- Embeds `RoomService.calculate_total_bill` (src/room_service.py:208-233).
`none` models the method re-raising after `get_room_price` raised. -/
def calculate_total_bill (db : DBState) (rf : ReadFailures) (rt : String)
    (ci co : Date) : Option BillBreakdown :=
  match get_room_price db rf.price_read_fails rt with
  | none => none
  | some price_per_night =>
    let nights : Int := co - ci
    let room_charge : ℚ := price_per_night * nights
    some { price_per_night := price_per_night
           nights := nights
           room_charge := room_charge
           tax := room_charge * (18 / 100)
           service_charge := room_charge * (10 / 100)
           total := room_charge + room_charge * (18 / 100) + room_charge * (10 / 100) }

/-! ## BookingService (src/booking_service.py) -/

/-- The booking-form dictionary handed to `BookingService.process_booking`.
A missing or falsy string field is the empty string; a missing date is
`none` (Python `date` objects are always truthy). -/
structure BookingData where
  name : String
  phone : String
  address : String
  room_type : String
  checkin_date : Option Date
  checkout_date : Option Date
deriving DecidableEq

/-- Embeds `BookingService.validate_booking_data`
(src/booking_service.py:176-193): required-field presence in list order, then
`DateService.validate_dates`; `some msg` is the returned error, `none`
success. -/
def validate_booking_data (today : Date) (bd : BookingData) : Option String :=
  if bd.name = "" then some "Name is required"
  else if bd.phone = "" then some "Phone is required"
  else if bd.address = "" then some "Address is required"
  else if bd.room_type = "" then some "Room Type is required"
  else
    match bd.checkin_date, bd.checkout_date with
    | none, _ => some "Checkin Date is required"
    | some _, none => some "Checkout Date is required"
    | some ci, some co =>
      if (validate_dates today ci co).1 then none else some (validate_dates today ci co).2

/-- Embeds `RequiredFieldsValidation.validate` (src/booking_service.py:64-80). -/
def required_fields_validate (bd : BookingData) : Bool × String :=
  if bd.name = "" then (false, "Name is required!")
  else if bd.phone = "" then (false, "Phone Number is required!")
  else if bd.address = "" then (false, "Address is required!")
  else if bd.room_type = "" then (false, "Room Type is required!")
  else if bd.room_type = "Select Room Type" then (false, "Please select a room type!")
  else (true, "")

/-- Embeds `DateValidation.validate` (src/booking_service.py:82-94). -/
def date_validation_validate (bd : BookingData) : Bool × String :=
  match bd.checkin_date, bd.checkout_date with
  | some ci, some co =>
    if co ≤ ci then (false, "Check-out date must be after check-in date!")
    else (true, "")
  | _, _ => (false, "Check-in and Check-out dates are required!")

/-- One observer callback fired by `notify_success` / `notify_error`
(src/booking_service.py:160-168); observers are identified by position. -/
inductive Notification where
  | success (observer : Nat) (bd : BookingData)
  | error (observer : Nat) (msg : String)
deriving DecidableEq

/-- `BookingService.notify_error`: fan-out of the message to every attached
observer, in attachment order. -/
def notify_error (observers : List Nat) (msg : String) : List Notification :=
  observers.map (fun o => Notification.error o msg)

/-- `BookingService.notify_success`: fan-out of the full booking payload to
every attached observer, in attachment order. -/
def notify_success (observers : List Nat) (bd : BookingData) : List Notification :=
  observers.map (fun o => Notification.success o bd)

/-- An INSERT statement issued through `DatabaseService.execute_query` during
`BookingService.process_booking`, with the parameter values passed to it. -/
inductive Stmt where
  | insertCustomer (name phone address : String)
  | insertBooking (customer_id : Option Nat) (room_type : String) (ci co : Date)
  | insertPayment (booking_id : Option Nat) (amount : ℚ)
deriving DecidableEq

/-- `execute_query` on the `customers` INSERT: on a SQL error the cursor
raises, `execute_query` logs, rolls back and returns `None`; otherwise the
row is committed and `lastrowid` returned (ids are consecutive, as
AUTOINCREMENT gives without deletions). -/
def insert_customer (db : DBState) (fails : Bool) (name phone address : String) :
    DBState × Option Nat :=
  if fails then (db, none)
  else
    let id := db.customers.length + 1
    ({ db with customers := db.customers ++ [⟨id, name, phone, address⟩] }, some id)

/-- `execute_query` on the `bookings` INSERT.  `customer_id` is declared
`NOT NULL`, so passing `None` raises `sqlite3.IntegrityError`, which
`execute_query` swallows: nothing is written and `none` is returned. -/
def insert_booking (db : DBState) (fails : Bool) (cid : Option Nat)
    (rt : String) (ci co : Date) : DBState × Option Nat :=
  if fails || cid.isNone then (db, none)
  else
    let id := db.bookings.length + 1
    ({ db with bookings := db.bookings ++ [⟨id, cid, rt, ci, co, "active"⟩] }, some id)

/-- `execute_query` on the `payments` INSERT (`booking_id` is `NOT NULL`);
the source passes the literal 'pending' as both payment method and status. -/
def insert_payment (db : DBState) (fails : Bool) (bid : Option Nat) (amount : ℚ) :
    DBState × Option Nat :=
  if fails || bid.isNone then (db, none)
  else
    let id := db.payments.length + 1
    ({ db with payments := db.payments ++ [⟨id, bid, amount, "pending", "pending"⟩] }, some id)

/-- The observable outcome of one `process_booking` call: the store after the
call, the observer callbacks fired, and the INSERT statements issued. -/
structure BookingOutcome where
  db : DBState
  notifications : List Notification
  writes : List Stmt
deriving DecidableEq

/-- The persistence phase of `BookingService.process_booking`
(src/booking_service.py:211-262): availability check, then the three inserts,
with the bill computed between the booking and payment inserts.  A raise from
`calculate_total_bill` is caught by the method's outer `except`, which
notifies the error (`str(e)` is the `ValueError` text from
`get_room_price`). -/
def process_booking_persist (db : DBState) (observers : List Nat)
    (rf : ReadFailures) (wf : WriteFailures) (today : Date) (bd : BookingData)
    (ci co : Date) : BookingOutcome :=
  if is_room_available db rf today bd.room_type ci co = false then
    ⟨db, notify_error observers "Selected room is not available for these dates!", []⟩
  else
    let r1 := insert_customer db wf.customer_insert_fails bd.name bd.phone bd.address
    let r2 := insert_booking r1.1 wf.booking_insert_fails r1.2 bd.room_type ci co
    match calculate_total_bill r2.1 rf bd.room_type ci co with
    | none =>
      ⟨r2.1, notify_error observers ("An error occurred: Invalid room type: " ++ bd.room_type),
       [Stmt.insertCustomer bd.name bd.phone bd.address,
        Stmt.insertBooking r1.2 bd.room_type ci co]⟩
    | some bill =>
      let r3 := insert_payment r2.1 wf.payment_insert_fails r2.2 bill.total
      ⟨r3.1, notify_success observers bd,
       [Stmt.insertCustomer bd.name bd.phone bd.address,
        Stmt.insertBooking r1.2 bd.room_type ci co,
        Stmt.insertPayment r2.2 bill.total]⟩

/-- Embeds `BookingService.process_booking` (src/booking_service.py:195-262):
`validate_booking_data`, then the two validation strategies in list order,
then the persistence phase.  Every failure before persistence notifies the
error and returns with nothing written. -/
def process_booking (db : DBState) (observers : List Nat) (rf : ReadFailures)
    (wf : WriteFailures) (today : Date) (bd : BookingData) : BookingOutcome :=
  match validate_booking_data today bd with
  | some err => ⟨db, notify_error observers err, []⟩
  | none =>
    if (required_fields_validate bd).1 = false then
      ⟨db, notify_error observers (required_fields_validate bd).2, []⟩
    else if (date_validation_validate bd).1 = false then
      ⟨db, notify_error observers (date_validation_validate bd).2, []⟩
    else
      match bd.checkin_date, bd.checkout_date with
      | some ci, some co => process_booking_persist db observers rf wf today bd ci co
      | _, _ => ⟨db, notify_error observers "Check-in and Check-out dates are required!", []⟩

/-! ## RecordsService (src/records_service.py) -/

/-- One row of the SELECT shared by the four record-loading strategies:
booking and customer columns plus the billing columns computed in SQL
(`julianday` difference of date-only values is their whole-day difference). -/
structure RecordRow where
  booking_id : Nat
  customer_name : String
  room_type : String
  checkin_date : Date
  checkout_date : Date
  nights : ℚ
  price_per_night : ℚ
  room_charge : ℚ
  tax : ℚ
  service_charge : ℚ
  total : ℚ
  status : String
deriving DecidableEq

/-- The SELECT list of the strategies' queries, for one joined
(booking, customer, room type) triple; `status_col` is the last column
(the stored status for `all`, a literal label for the other strategies). -/
def enrich (b : BookingRow) (c : CustomerRow) (r : RoomTypeRow)
    (status_col : String) : RecordRow :=
  let nights : ℚ := ((b.checkout_date - b.checkin_date : Int) : ℚ)
  let room_charge : ℚ := nights * r.price
  ⟨b.id, c.name, b.room_type, b.checkin_date, b.checkout_date, nights, r.price,
   room_charge, room_charge * (18 / 100), room_charge * (10 / 100),
   room_charge * (128 / 100), status_col⟩

/-- The `FROM bookings b JOIN customers c ON b.customer_id = c.id JOIN
room_types rt ON b.room_type = rt.room_type` of the strategies' queries:
one triple per matching combination (a `NULL` `customer_id` matches no
customer row). -/
def join_rows (db : DBState) : List (BookingRow × CustomerRow × RoomTypeRow) :=
  db.bookings.flatMap (fun b =>
    (db.customers.filter (fun c => some c.id == b.customer_id)).flatMap (fun c =>
      (db.room_types.filter (fun r => r.room_type == b.room_type)).map (fun r => (b, c, r))))

/-- `ORDER BY b.checkin_date DESC` of the strategies' queries (any sort by
descending check-in date realises it; SQLite fixes no tie order). -/
def order_by_checkin_desc (rows : List RecordRow) : List RecordRow :=
  rows.insertionSort (fun a b => b.checkin_date ≤ a.checkin_date)

/-- The filter selector of `RecordsWindow` / `RecordsService.set_strategy`:
one constructor per concrete `RecordLoadStrategy`. -/
inductive FilterKind where
  | all
  | active
  | upcoming
  | completed
deriving DecidableEq

/-- Embeds `AllRecordsStrategy.load` (src/records_service.py:18-38): every
joined booking, status column = stored status. -/
def all_strategy_load (db : DBState) : List RecordRow :=
  order_by_checkin_desc ((join_rows db).map (fun x => enrich x.1 x.2.1 x.2.2 x.1.status))

/-- Embeds `ActiveRecordsStrategy.load` (src/records_service.py:40-62):
stored status 'active' and `date('now') BETWEEN checkin AND checkout`
(inclusive both ends), status column the literal 'Active'. -/
def active_strategy_load (db : DBState) (today : Date) : List RecordRow :=
  order_by_checkin_desc
    (((join_rows db).filter (fun x =>
        x.1.status == "active" &&
          (decide (x.1.checkin_date ≤ today) && decide (today ≤ x.1.checkout_date)))).map
      (fun x => enrich x.1 x.2.1 x.2.2 "Active"))

/-- Embeds `UpcomingRecordsStrategy.load` (src/records_service.py:64-86):
stored status 'active' and `date('now') < checkin`, status column the
literal 'Upcoming'. -/
def upcoming_strategy_load (db : DBState) (today : Date) : List RecordRow :=
  order_by_checkin_desc
    (((join_rows db).filter (fun x =>
        x.1.status == "active" && decide (today < x.1.checkin_date))).map
      (fun x => enrich x.1 x.2.1 x.2.2 "Upcoming"))

/-- Embeds `CompletedRecordsStrategy.load` (src/records_service.py:88-110):
stored status 'active' and `date('now') > checkout`, status column the
literal 'Completed'. -/
def completed_strategy_load (db : DBState) (today : Date) : List RecordRow :=
  order_by_checkin_desc
    (((join_rows db).filter (fun x =>
        x.1.status == "active" && decide (x.1.checkout_date < today))).map
      (fun x => enrich x.1 x.2.1 x.2.2 "Completed"))

/-- The strategy dispatched for each filter kind. -/
def strategy_load (k : FilterKind) (db : DBState) (today : Date) : List RecordRow :=
  match k with
  | .all => all_strategy_load db
  | .active => active_strategy_load db today
  | .upcoming => upcoming_strategy_load db today
  | .completed => completed_strategy_load db today

/-- How the fetch inside a strategy's `load` ends: rows returned; a
`sqlite3.Error` (swallowed by `fetch_query`, which logs and returns `None`);
or a non-SQL exception propagating out of the strategy. -/
inductive FetchOutcome where
  | ok
  | sqlError
  | raised
deriving DecidableEq

/-- An observable event of `RecordsService.load_records`: an `update`
callback on one observer, or a diagnostic line (logger or console). -/
inductive RecordsEvent where
  | update (observer : Nat) (records : List RecordRow)
  | log (msg : String)
deriving DecidableEq

/-- `RecordsService.notify` (src/records_service.py:125-127): fan-out of the
records list to every attached observer, in attachment order. -/
def notify_records (observers : List Nat) (records : List RecordRow) : List RecordsEvent :=
  observers.map (fun o => RecordsEvent.update o records)

/-- Embeds `RecordsService.load_records` (src/records_service.py:133-139).
On `ok` the strategy's rows are fetched and notified (`records if records
else []` sends the same value either way); on a swallowed SQL error the
strategy returns `None`, so `[]` is notified after `fetch_query` logged the
error; on a raised exception the `except` branch prints and notifies `[]`. -/
def load_records (k : FilterKind) (db : DBState) (today : Date)
    (observers : List Nat) (outcome : FetchOutcome) : List RecordsEvent :=
  match outcome with
  | .ok => notify_records observers (strategy_load k db today)
  | .sqlError => RecordsEvent.log "Error fetching query" :: notify_records observers []
  | .raised => RecordsEvent.log "Error loading records" :: notify_records observers []

/-! ## Concrete fixtures -/

/-- A well-formed booking request: all fields present, a seeded room type,
check-in day 1, check-out day 3. -/
def sample_booking : BookingData :=
  ⟨"Alice", "555-0100", "1 Main St", "Single", some 1, some 3⟩

/-- A store whose single active booking references a room type absent from
`room_types`.  Nothing prevents such a state: SQLite does not enforce the
declared foreign keys by default and no code path re-checks them. -/
def dangling_db : DBState :=
  ⟨[⟨1, "A", "1", "x"⟩], seed_room_types, [⟨1, some 1, "Penthouse", 5, 8, "active"⟩], []⟩

/-- A store with one active future booking whose customer and room-type
references both resolve. -/
def upcoming_db : DBState :=
  ⟨[⟨1, "A", "1", "x"⟩], seed_room_types, [⟨1, some 1, "Single", 5, 8, "active"⟩], []⟩

/-! ## Helper lemmas -/

/-- A date pair that passes `validate_dates` has checkout strictly after
checkin. -/
lemma validate_dates_true_lt {today ci co : Date}
    (h : (validate_dates today ci co).1 = true) : ci < co := by
  unfold validate_dates at h
  split_ifs at h with h1 h2 h3
  exact lt_of_not_le h2

/-- A successful capacity lookup means the fetch succeeded and the room type
row exists. -/
lemma get_room_capacity_some {db : DBState} {f : Bool} {rt : String} {cap : Int}
    (h : get_room_capacity db f rt = some cap) :
    f = false ∧ ∃ r, find_room_type db rt = some r ∧ r.capacity = cap := by
  unfold get_room_capacity at h
  split_ifs at h with hf
  simp only [Option.map_eq_some'] at h
  obtain ⟨r, hr, hc⟩ := h
  exact ⟨by simpa using hf, r, hr, hc⟩

/-- `is_room_available` can only return `true` when the capacity lookup
succeeded. -/
lemma is_room_available_true_capacity {db : DBState} {rf : ReadFailures}
    {today : Date} {rt : String} {ci co : Date}
    (h : is_room_available db rf today rt ci co = true) :
    ∃ r, find_room_type db rt = some r := by
  unfold is_room_available at h
  by_cases hv : (validate_dates today ci co).1 = false
  · rw [if_pos hv] at h
    simp at h
  · rw [if_neg hv] at h
    cases hcap : get_room_capacity db rf.capacity_read_fails rt with
    | none => rw [hcap] at h; simp at h
    | some cap =>
      obtain ⟨-, r, hr, -⟩ := get_room_capacity_some hcap
      exact ⟨r, hr⟩

/-- The inserts of `process_booking` never touch the `room_types` table. -/
lemma insert_customer_room_types (db : DBState) (f : Bool) (n p a : String) :
    (insert_customer db f n p a).1.room_types = db.room_types := by
  unfold insert_customer; split <;> rfl

/-- The bookings insert never touches the `room_types` table. -/
lemma insert_booking_room_types (db : DBState) (f : Bool) (cid : Option Nat)
    (rt : String) (ci co : Date) :
    (insert_booking db f cid rt ci co).1.room_types = db.room_types := by
  unfold insert_booking; split <;> rfl

/-- Price lookup only reads the `room_types` table. -/
lemma get_room_price_congr {db db' : DBState} (h : db'.room_types = db.room_types)
    (f : Bool) (rt : String) : get_room_price db' f rt = get_room_price db f rt := by
  unfold get_room_price find_room_type
  rw [h]

/-- A request passing `validate_booking_data` has both dates present. -/
lemma validate_booking_data_none_dates {today : Date} {bd : BookingData}
    (h : validate_booking_data today bd = none) :
    ∃ ci co, bd.checkin_date = some ci ∧ bd.checkout_date = some co := by
  unfold validate_booking_data at h
  split_ifs at h
  cases hci : bd.checkin_date with
  | none => rw [hci] at h; simp at h
  | some ci =>
    cases hco : bd.checkout_date with
    | none => rw [hci, hco] at h; simp at h
    | some co => exact ⟨ci, co, rfl, rfl⟩

/-- When every pre-persistence check passes, `process_booking` runs the
persistence phase. -/
lemma process_booking_eq_persist (db : DBState) (observers : List Nat)
    (rf : ReadFailures) (wf : WriteFailures) (today : Date) (bd : BookingData)
    {ci co : Date}
    (h1 : validate_booking_data today bd = none)
    (h2 : (required_fields_validate bd).1 = true)
    (h3 : (date_validation_validate bd).1 = true)
    (hci : bd.checkin_date = some ci) (hco : bd.checkout_date = some co) :
    process_booking db observers rf wf today bd =
      process_booking_persist db observers rf wf today bd ci co := by
  simp [process_booking, h1, h2, h3, hci, hco]

/-- The success-path run of `process_booking`: with every check passing and
the price lookup succeeding, the three inserts are issued in order and every
observer is notified of success. -/
lemma process_booking_success_run (db : DBState) (observers : List Nat)
    (rf : ReadFailures) (wf : WriteFailures) (today : Date) (bd : BookingData)
    {ci co : Date} {price : ℚ}
    (h1 : validate_booking_data today bd = none)
    (h2 : (required_fields_validate bd).1 = true)
    (h3 : (date_validation_validate bd).1 = true)
    (hci : bd.checkin_date = some ci) (hco : bd.checkout_date = some co)
    (hav : is_room_available db rf today bd.room_type ci co = true)
    (hp : get_room_price db rf.price_read_fails bd.room_type = some price) :
    process_booking db observers rf wf today bd =
      let r1 := insert_customer db wf.customer_insert_fails bd.name bd.phone bd.address
      let r2 := insert_booking r1.1 wf.booking_insert_fails r1.2 bd.room_type ci co
      let room_charge : ℚ := price * ((co - ci : Int) : ℚ)
      let total : ℚ := room_charge + room_charge * (18 / 100) + room_charge * (10 / 100)
      let r3 := insert_payment r2.1 wf.payment_insert_fails r2.2 total
      ⟨r3.1, notify_success observers bd,
       [Stmt.insertCustomer bd.name bd.phone bd.address,
        Stmt.insertBooking r1.2 bd.room_type ci co,
        Stmt.insertPayment r2.2 total]⟩ := by
  rw [process_booking_eq_persist db observers rf wf today bd h1 h2 h3 hci hco]
  have hrt : (insert_booking
      (insert_customer db wf.customer_insert_fails bd.name bd.phone bd.address).1
      wf.booking_insert_fails
      (insert_customer db wf.customer_insert_fails bd.name bd.phone bd.address).2
      bd.room_type ci co).1.room_types = db.room_types := by
    rw [insert_booking_room_types, insert_customer_room_types]
  have hp2 := (get_room_price_congr hrt rf.price_read_fails bd.room_type).trans hp
  simp only [process_booking_persist, hav, Bool.true_eq_false, if_false,
    calculate_total_bill, hp2]

/-- The fully successful run (no read or write failures): one new row in each
of `customers`, `bookings` and `payments`, ids one past the current table
lengths, and `room_types` untouched. -/
lemma process_booking_success_tables (db : DBState) (observers : List Nat)
    (today : Date) (bd : BookingData) {ci co : Date} {price : ℚ}
    (h1 : validate_booking_data today bd = none)
    (h2 : (required_fields_validate bd).1 = true)
    (h3 : (date_validation_validate bd).1 = true)
    (hci : bd.checkin_date = some ci) (hco : bd.checkout_date = some co)
    (hav : is_room_available db noReadFailures today bd.room_type ci co = true)
    (hp : get_room_price db false bd.room_type = some price) :
    (process_booking db observers noReadFailures noWriteFailures today bd).db.customers
      = db.customers ++ [⟨db.customers.length + 1, bd.name, bd.phone, bd.address⟩] ∧
    (process_booking db observers noReadFailures noWriteFailures today bd).db.bookings
      = db.bookings ++ [⟨db.bookings.length + 1, some (db.customers.length + 1),
          bd.room_type, ci, co, "active"⟩] ∧
    (process_booking db observers noReadFailures noWriteFailures today bd).db.payments
      = db.payments ++ [⟨db.payments.length + 1, some (db.bookings.length + 1),
          price * ((co - ci : Int) : ℚ) + price * ((co - ci : Int) : ℚ) * (18 / 100)
            + price * ((co - ci : Int) : ℚ) * (10 / 100), "pending", "pending"⟩] ∧
    (process_booking db observers noReadFailures noWriteFailures today bd).db.room_types
      = db.room_types := by
  rw [process_booking_success_run db observers noReadFailures noWriteFailures today bd
    h1 h2 h3 hci hco hav hp]
  refine ⟨?_, ?_, ?_, ?_⟩ <;>
    simp [insert_customer, insert_booking, insert_payment, noWriteFailures]

/-! ## Claim theorems -/

/-- C1 (counterexample): as literally stated — quantified over *every*
requested date range — the claim is false: with the seeded store (capacity 20
for "Single") and no bookings at all, the overlap count 0 is below capacity,
yet `is_room_available` returns `false` for the range `[3, 5)` requested when
today is day 10, because the range lies in the past and the date-validation
step rejects it before the count is ever compared. -/
theorem C1_availability_counterexample :
    get_room_capacity seed_db false "Single" = some 20 ∧
    ((overlapping_count seed_db "Single" 3 5 : Int) < 20) ∧
    is_room_available seed_db noReadFailures 10 "Single" 3 5 = false := by
  decide

/-- C1 (amended): for every store, requested range that passes date
validation, and room type whose capacity lookup succeeds, with both reads
succeeding, `is_room_available` returns `true` iff the number of stored
'active' bookings of that room type overlapping the requested range under the
three-disjunct SQL predicate is strictly below the capacity; and an existing
booking whose checkout equals the requested checkin never counts as
overlapping. -/
theorem C1_availability_iff_under_capacity (db : DBState) (rf : ReadFailures)
    (today : Date) (rt : String) (ci co : Date) (cap : Int)
    (hv : (validate_dates today ci co).1 = true)
    (hc : rf.capacity_read_fails = false)
    (hb : rf.bookings_read_fails = false)
    (hcap : get_room_capacity db false rt = some cap) :
    (is_room_available db rf today rt ci co = true ↔
      (overlapping_count db rt ci co : Int) < cap) ∧
    (∀ eci eco : Date, eci < eco → eco = ci → sql_overlaps eci eco ci co = false) := by
  constructor
  · rw [is_room_available, hv, hc, hb, hcap]
    simp
  · intro eci eco hlt heq
    have hco : ci < co := validate_dates_true_lt hv
    subst heq
    simp only [sql_overlaps, Bool.or_eq_false_iff, Bool.and_eq_false_iff,
      decide_eq_false_iff_not, not_le, not_lt]
    exact ⟨⟨Or.inr (le_refl _), Or.inr hco⟩, Or.inl hlt⟩

/-- C1 (witness): the amended theorem applied to the seeded store, room type
"Double", requested range `[1, 3)` seen from day 0. -/
theorem C1_availability_witness :
    (validate_dates 0 1 3).1 = true ∧
    get_room_capacity seed_db false "Double" = some 20 ∧
    (is_room_available seed_db noReadFailures 0 "Double" 1 3 = true ↔
      (overlapping_count seed_db "Double" 1 3 : Int) < 20) :=
  ⟨by decide, by decide,
    (C1_availability_iff_under_capacity seed_db noReadFailures 0 "Double" 1 3 20
      (by decide) rfl rfl (by decide)).1⟩

/-- C2: `is_room_available` fails closed — whenever the date pair fails
validation, or the capacity lookup raises (unknown room type or a failed
read), or the bookings read fails, it returns `false`.  The embedding is a
total function: the source method's catch-all `except` turns every raise
into a `False` return, so no exception reaches the caller. -/
theorem C2_availability_fails_closed (db : DBState) (rf : ReadFailures)
    (today : Date) (rt : String) (ci co : Date)
    (h : (validate_dates today ci co).1 = false ∨
         get_room_capacity db rf.capacity_read_fails rt = none ∨
         rf.bookings_read_fails = true) :
    is_room_available db rf today rt ci co = false := by
  unfold is_room_available
  rcases h with h | h | h
  · simp [h]
  · split
    · rfl
    · rw [h]
  · split
    · rfl
    · cases hcap : get_room_capacity db rf.capacity_read_fails rt with
      | none => rfl
      | some cap => simp [h]

/-- C2 (witness): the fails-closed theorem applied to an unknown room type
("Penthouse" is not in the seeded store). -/
theorem C2_availability_fails_closed_witness :
    get_room_capacity seed_db false "Penthouse" = none ∧
    is_room_available seed_db noReadFailures 0 "Penthouse" 1 3 = false :=
  ⟨by decide,
    C2_availability_fails_closed seed_db noReadFailures 0 "Penthouse" 1 3
      (Or.inr (Or.inl (by decide)))⟩

/-- C3: `validate_dates` applies its rules in order with short-circuit on the
first failure — check-in before today fails with the past-check-in reason;
otherwise checkout ≤ checkin fails with the not-after reason; otherwise a
stay longer than 30 days fails with the too-long reason; otherwise it
succeeds. -/
theorem C3_validate_dates_rule_order (today checkin checkout : Date) :
    (checkin < today →
      validate_dates today checkin checkout =
        (false, "Check-in date cannot be in the past")) ∧
    (¬ checkin < today → checkout ≤ checkin →
      validate_dates today checkin checkout =
        (false, "Check-out date must be after check-in date")) ∧
    (¬ checkin < today → ¬ checkout ≤ checkin → checkout - checkin > 30 →
      validate_dates today checkin checkout = (false, "Maximum stay is 30 days")) ∧
    (¬ checkin < today → ¬ checkout ≤ checkin → ¬ checkout - checkin > 30 →
      validate_dates today checkin checkout = (true, "")) := by
  unfold validate_dates
  refine ⟨fun h1 => ?_, fun h1 h2 => ?_, fun h1 h2 h3 => ?_, fun h1 h2 h3 => ?_⟩
  · simp [h1]
  · simp [h1, h2]
  · simp [h1, h2, h3]
  · simp [h1, h2, h3]

/-- C3 (witness): the rule-order theorem applied to one concrete input per
branch (today = 10). -/
theorem C3_validate_dates_witness :
    validate_dates 10 5 12 = (false, "Check-in date cannot be in the past") ∧
    validate_dates 10 12 12 = (false, "Check-out date must be after check-in date") ∧
    validate_dates 10 12 50 = (false, "Maximum stay is 30 days") ∧
    validate_dates 10 12 20 = (true, "") :=
  ⟨(C3_validate_dates_rule_order 10 5 12).1 (by decide),
   (C3_validate_dates_rule_order 10 12 12).2.1 (by decide) (by decide),
   (C3_validate_dates_rule_order 10 12 50).2.2.1 (by decide) (by decide) (by decide),
   (C3_validate_dates_rule_order 10 12 20).2.2.2 (by decide) (by decide) (by decide)⟩

/-- C4: for every room type whose price lookup succeeds and every date pair,
`calculate_total_bill` returns nights = checkout − checkin in whole days,
roomCharge = price × nights, tax = 0.18 × roomCharge, serviceCharge = 0.10 ×
roomCharge, and total = roomCharge + tax + serviceCharge = 1.28 ×
roomCharge. -/
theorem C4_bill_formulas (db : DBState) (rf : ReadFailures) (rt : String)
    (ci co : Date) (p : ℚ)
    (hp : get_room_price db rf.price_read_fails rt = some p) :
    ∃ bill, calculate_total_bill db rf rt ci co = some bill ∧
      bill.price_per_night = p ∧
      bill.nights = co - ci ∧
      bill.room_charge = p * ((co - ci : Int) : ℚ) ∧
      bill.tax = (18 / 100) * bill.room_charge ∧
      bill.service_charge = (10 / 100) * bill.room_charge ∧
      bill.total = bill.room_charge + bill.tax + bill.service_charge ∧
      bill.total = (128 / 100) * bill.room_charge := by
  refine ⟨_, by rw [calculate_total_bill, hp], rfl, rfl, rfl, by ring, by ring, rfl, by ring⟩

/-- C4 (witness): the billing theorem at price 100/night for "Single" over a
3-night range (the spec's concrete example: nights 3, roomCharge 300, tax 54,
serviceCharge 30, total 384). -/
theorem C4_bill_witness :
    get_room_price seed_db false "Single" = some 100 ∧
    ∃ bill, calculate_total_bill seed_db noReadFailures "Single" 0 3 = some bill ∧
      bill.nights = 3 ∧ bill.room_charge = 300 ∧ bill.tax = 54 ∧
      bill.service_charge = 30 ∧ bill.total = 384 := by
  refine ⟨by decide, ?_⟩
  obtain ⟨bill, hb, hpn, hn, hrc, ht, hs, htot, -⟩ :=
    C4_bill_formulas seed_db noReadFailures "Single" 0 3 100 (by decide)
  refine ⟨bill, hb, by rw [hn]; norm_num, by rw [hrc]; norm_num, ?_, ?_, ?_⟩
  · rw [ht, hrc]; norm_num
  · rw [hs, hrc]; norm_num
  · rw [htot, ht, hs, hrc]; norm_num

/-- C5: a booking request that fails the required-field check, the date
validation, or the availability check leaves the store untouched (no INSERT
is issued at all) and notifies every attached observer with an error. -/
theorem C5_prepersistence_failure_writes_nothing (db : DBState)
    (observers : List Nat) (rf : ReadFailures) (wf : WriteFailures)
    (today : Date) (bd : BookingData)
    (h : validate_booking_data today bd ≠ none ∨
         (required_fields_validate bd).1 = false ∨
         (date_validation_validate bd).1 = false ∨
         ∀ ci co : Date, bd.checkin_date = some ci → bd.checkout_date = some co →
           is_room_available db rf today bd.room_type ci co = false) :
    (process_booking db observers rf wf today bd).db = db ∧
    (process_booking db observers rf wf today bd).writes = [] ∧
    ∃ msg, (process_booking db observers rf wf today bd).notifications =
      notify_error observers msg := by
  cases hv : validate_booking_data today bd with
  | some err =>
    refine ⟨?_, ?_, err, ?_⟩ <;> simp [process_booking, hv]
  | none =>
    obtain ⟨ci, co, hci, hco⟩ := validate_booking_data_none_dates hv
    by_cases h2 : (required_fields_validate bd).1 = false
    · refine ⟨?_, ?_, (required_fields_validate bd).2, ?_⟩ <;>
        simp [process_booking, hv, h2]
    · have h2t : (required_fields_validate bd).1 = true := by
        cases hb : (required_fields_validate bd).1
        · exact absurd hb h2
        · rfl
      by_cases h3 : (date_validation_validate bd).1 = false
      · refine ⟨?_, ?_, (date_validation_validate bd).2, ?_⟩ <;>
          simp [process_booking, hv, h2t, h3]
      · have h3t : (date_validation_validate bd).1 = true := by
          cases hb : (date_validation_validate bd).1
          · exact absurd hb h3
          · rfl
        rcases h with h | h | h | h
        · exact absurd hv h
        · exact absurd h h2
        · exact absurd h h3
        · have hav := h ci co hci hco
          rw [process_booking_eq_persist db observers rf wf today bd hv h2t h3t hci hco]
          refine ⟨?_, ?_, "Selected room is not available for these dates!", ?_⟩ <;>
            simp [process_booking_persist, hav]

/-- C5 (witness): the theorem applied to a request with an empty name
(required-field failure) against the seeded store. -/
theorem C5_prepersistence_failure_witness :
    (process_booking seed_db [0] noReadFailures noWriteFailures 0
      ⟨"", "555-0100", "1 Main St", "Single", some 1, some 3⟩).db = seed_db ∧
    (process_booking seed_db [0] noReadFailures noWriteFailures 0
      ⟨"", "555-0100", "1 Main St", "Single", some 1, some 3⟩).writes = [] ∧
    ∃ msg, (process_booking seed_db [0] noReadFailures noWriteFailures 0
      ⟨"", "555-0100", "1 Main St", "Single", some 1, some 3⟩).notifications =
        notify_error [0] msg :=
  C5_prepersistence_failure_writes_nothing seed_db [0] noReadFailures noWriteFailures 0
    ⟨"", "555-0100", "1 Main St", "Single", some 1, some 3⟩ (Or.inl (by decide))

/-- C6: with every pre-persistence check passing, `process_booking` never
raises past its boundary (the embedding is total): when the persistence-phase
price lookup succeeds every observer is notified with the full booking
payload, and when it raises the outer `except` notifies every observer with
the error message and does not re-raise. -/
theorem C6_submit_never_raises (db : DBState) (observers : List Nat)
    (rf : ReadFailures) (wf : WriteFailures) (today : Date) (bd : BookingData)
    (ci co : Date)
    (h1 : validate_booking_data today bd = none)
    (h2 : (required_fields_validate bd).1 = true)
    (h3 : (date_validation_validate bd).1 = true)
    (hci : bd.checkin_date = some ci) (hco : bd.checkout_date = some co)
    (hav : is_room_available db rf today bd.room_type ci co = true) :
    (rf.price_read_fails = false →
      (process_booking db observers rf wf today bd).notifications =
        notify_success observers bd) ∧
    (rf.price_read_fails = true →
      (process_booking db observers rf wf today bd).notifications =
        notify_error observers ("An error occurred: Invalid room type: " ++ bd.room_type)) := by
  obtain ⟨r, hr⟩ := is_room_available_true_capacity hav
  constructor
  · intro hpf
    have hp : get_room_price db rf.price_read_fails bd.room_type = some r.price := by
      simp [get_room_price, hpf, hr]
    rw [process_booking_success_run db observers rf wf today bd h1 h2 h3 hci hco hav hp]
  · intro hpf
    rw [process_booking_eq_persist db observers rf wf today bd h1 h2 h3 hci hco]
    simp [process_booking_persist, hav, calculate_total_bill, get_room_price, hpf]

/-- C6 (witness): the theorem applied to the seeded store — the success
branch with all reads fine, and the error branch with the price read
failing. -/
theorem C6_submit_never_raises_witness :
    (process_booking seed_db [0] noReadFailures noWriteFailures 0
      sample_booking).notifications = notify_success [0] sample_booking ∧
    (process_booking seed_db [0] ⟨false, false, true⟩ noWriteFailures 0
      sample_booking).notifications =
      notify_error [0] ("An error occurred: Invalid room type: " ++ sample_booking.room_type) :=
  ⟨(C6_submit_never_raises seed_db [0] noReadFailures noWriteFailures 0 sample_booking 1 3
      (by decide) (by decide) (by decide) rfl rfl (by decide)).1 rfl,
   (C6_submit_never_raises seed_db [0] ⟨false, false, true⟩ noWriteFailures 0 sample_booking 1 3
      (by decide) (by decide) (by decide) rfl rfl (by decide)).2 rfl⟩

/-- C7: booking submission is not idempotent — submitting the identical valid
request twice (with the room still available the second time) appends two
distinct customer rows, two distinct booking rows and two distinct payment
rows; nothing deduplicates the second submission against the first. -/
theorem C7_resubmission_not_idempotent (db : DBState) (observers : List Nat)
    (today : Date) (bd : BookingData) (ci co : Date)
    (h1 : validate_booking_data today bd = none)
    (h2 : (required_fields_validate bd).1 = true)
    (h3 : (date_validation_validate bd).1 = true)
    (hci : bd.checkin_date = some ci) (hco : bd.checkout_date = some co)
    (hav1 : is_room_available db noReadFailures today bd.room_type ci co = true)
    (hav2 : is_room_available
      (process_booking db observers noReadFailures noWriteFailures today bd).db
      noReadFailures today bd.room_type ci co = true) :
    ∃ c1 c2 : CustomerRow, ∃ b1 b2 : BookingRow, ∃ p1 p2 : PaymentRow,
      c1.id ≠ c2.id ∧ b1.id ≠ b2.id ∧ p1.id ≠ p2.id ∧
      (process_booking
        (process_booking db observers noReadFailures noWriteFailures today bd).db
        observers noReadFailures noWriteFailures today bd).db.customers
        = db.customers ++ [c1, c2] ∧
      (process_booking
        (process_booking db observers noReadFailures noWriteFailures today bd).db
        observers noReadFailures noWriteFailures today bd).db.bookings
        = db.bookings ++ [b1, b2] ∧
      (process_booking
        (process_booking db observers noReadFailures noWriteFailures today bd).db
        observers noReadFailures noWriteFailures today bd).db.payments
        = db.payments ++ [p1, p2] := by
  obtain ⟨r, hr⟩ := is_room_available_true_capacity hav1
  have hp1 : get_room_price db false bd.room_type = some r.price := by
    simp [get_room_price, hr]
  have t1 := process_booking_success_tables db observers today bd h1 h2 h3 hci hco hav1 hp1
  have hp2 : get_room_price
      (process_booking db observers noReadFailures noWriteFailures today bd).db
      false bd.room_type = some r.price :=
    (get_room_price_congr t1.2.2.2 false bd.room_type).trans hp1
  have t2 := process_booking_success_tables
    (process_booking db observers noReadFailures noWriteFailures today bd).db
    observers today bd h1 h2 h3 hci hco hav2 hp2
  refine ⟨⟨db.customers.length + 1, bd.name, bd.phone, bd.address⟩,
    ⟨db.customers.length + 1 + 1, bd.name, bd.phone, bd.address⟩,
    ⟨db.bookings.length + 1, some (db.customers.length + 1), bd.room_type, ci, co, "active"⟩,
    ⟨db.bookings.length + 1 + 1, some (db.customers.length + 1 + 1),
      bd.room_type, ci, co, "active"⟩,
    ⟨db.payments.length + 1, some (db.bookings.length + 1),
      r.price * ((co - ci : Int) : ℚ) + r.price * ((co - ci : Int) : ℚ) * (18 / 100)
        + r.price * ((co - ci : Int) : ℚ) * (10 / 100), "pending", "pending"⟩,
    ⟨db.payments.length + 1 + 1, some (db.bookings.length + 1 + 1),
      r.price * ((co - ci : Int) : ℚ) + r.price * ((co - ci : Int) : ℚ) * (18 / 100)
        + r.price * ((co - ci : Int) : ℚ) * (10 / 100), "pending", "pending"⟩,
    by simp, by simp, by simp, ?_, ?_, ?_⟩
  · rw [t2.1, t1.1]
    simp [List.append_assoc, List.length_append]
  · rw [t2.2.1, t1.2.1, t1.1]
    simp [List.append_assoc, List.length_append]
  · rw [t2.2.2.1, t1.2.2.1, t1.2.1]
    simp [List.append_assoc, List.length_append]

/-- C7 (witness): two submissions of `sample_booking` against the seeded
store (capacity 20, so the room stays available). -/
theorem C7_resubmission_witness :
    ∃ c1 c2 : CustomerRow, ∃ b1 b2 : BookingRow, ∃ p1 p2 : PaymentRow,
      c1.id ≠ c2.id ∧ b1.id ≠ b2.id ∧ p1.id ≠ p2.id ∧
      (process_booking
        (process_booking seed_db [0] noReadFailures noWriteFailures 0 sample_booking).db
        [0] noReadFailures noWriteFailures 0 sample_booking).db.customers
        = seed_db.customers ++ [c1, c2] ∧
      (process_booking
        (process_booking seed_db [0] noReadFailures noWriteFailures 0 sample_booking).db
        [0] noReadFailures noWriteFailures 0 sample_booking).db.bookings
        = seed_db.bookings ++ [b1, b2] ∧
      (process_booking
        (process_booking seed_db [0] noReadFailures noWriteFailures 0 sample_booking).db
        [0] noReadFailures noWriteFailures 0 sample_booking).db.payments
        = seed_db.payments ++ [p1, p2] :=
  C7_resubmission_not_idempotent seed_db [0] 0 sample_booking 1 3
    (by decide) (by decide) (by decide) rfl rfl (by decide) (by decide)

/-- C10: `execute_query` swallows SQL errors and returns `None`
(`insert_customer` with the failure flag leaves the store unchanged and
yields `none`); when the customer insert fails this way during an otherwise
valid submission, the workflow is not aborted: the booking insert is still
issued with `None` as the customer id, the payment insert follows, no error
notification fires, and every observer is notified of success. -/
theorem C10_sql_error_continues_to_success (db : DBState) (observers : List Nat)
    (today : Date) (bd : BookingData) (ci co : Date)
    (h1 : validate_booking_data today bd = none)
    (h2 : (required_fields_validate bd).1 = true)
    (h3 : (date_validation_validate bd).1 = true)
    (hci : bd.checkin_date = some ci) (hco : bd.checkout_date = some co)
    (hav : is_room_available db noReadFailures today bd.room_type ci co = true) :
    (∀ (q : DBState) (n p a : String), insert_customer q true n p a = (q, none)) ∧
    ∃ amount,
      (process_booking db observers noReadFailures ⟨true, false, false⟩ today bd).notifications
        = notify_success observers bd ∧
      (∀ o m, Notification.error o m ∉
        (process_booking db observers noReadFailures ⟨true, false, false⟩ today bd).notifications) ∧
      (process_booking db observers noReadFailures ⟨true, false, false⟩ today bd).writes
        = [Stmt.insertCustomer bd.name bd.phone bd.address,
           Stmt.insertBooking none bd.room_type ci co,
           Stmt.insertPayment none amount] := by
  obtain ⟨r, hr⟩ := is_room_available_true_capacity hav
  have hp : get_room_price db false bd.room_type = some r.price := by
    simp [get_room_price, hr]
  rw [process_booking_success_run db observers noReadFailures ⟨true, false, false⟩ today bd
    h1 h2 h3 hci hco hav hp]
  refine ⟨fun q n p a => rfl,
    r.price * ((co - ci : Int) : ℚ) + r.price * ((co - ci : Int) : ℚ) * (18 / 100)
      + r.price * ((co - ci : Int) : ℚ) * (10 / 100), rfl, ?_, rfl⟩
  intro o m
  simp [notify_success]

/-- C10 (witness): the theorem applied to the seeded store and
`sample_booking`, with the customer insert hitting a SQL error. -/
theorem C10_sql_error_witness :
    insert_customer seed_db true "Alice" "555-0100" "1 Main St" = (seed_db, none) ∧
    ∃ amount,
      (process_booking seed_db [0] noReadFailures ⟨true, false, false⟩ 0
        sample_booking).notifications = notify_success [0] sample_booking ∧
      (process_booking seed_db [0] noReadFailures ⟨true, false, false⟩ 0
        sample_booking).writes
        = [Stmt.insertCustomer "Alice" "555-0100" "1 Main St",
           Stmt.insertBooking none "Single" 1 3,
           Stmt.insertPayment none amount] := by
  obtain ⟨hq, amount, hn, -, hw⟩ :=
    C10_sql_error_continues_to_success seed_db [0] 0 sample_booking 1 3
      (by decide) (by decide) (by decide) rfl rfl (by decide)
  exact ⟨hq seed_db "Alice" "555-0100" "1 Main St", amount, hn, hw⟩

/-- C8 (counterexample): as literally stated — over *every* state of the
store — the claim is false: `dangling_db` holds an active booking with
checkin after today whose room type has no `room_types` row, and the
`upcoming` query's inner JOIN drops it, so the pipeline returns nothing even
though the claimed predicate selects the booking. -/
theorem C8_upcoming_counterexample :
    (∃ b ∈ dangling_db.bookings, b.status = "active" ∧ (0 : Date) < b.checkin_date) ∧
    upcoming_strategy_load dangling_db 0 = [] := by
  decide

/-- C8 (amended): on a store with distinct booking ids whose bookings'
customer and room-type references all resolve, the `upcoming` pipeline
returns exactly the bookings with stored status 'active' and today strictly
before checkin — every booking with checkin ≤ today is excluded — and labels
every returned row "Upcoming". -/
theorem C8_upcoming_filter_exact (db : DBState) (today : Date)
    (hids : (db.bookings.map (fun b => b.id)).Nodup)
    (href : ∀ b ∈ db.bookings,
      (∃ c ∈ db.customers, some c.id = b.customer_id) ∧
      (∃ r ∈ db.room_types, r.room_type = b.room_type)) :
    (∀ b ∈ db.bookings,
      ((∃ row ∈ upcoming_strategy_load db today, row.booking_id = b.id) ↔
        (b.status = "active" ∧ today < b.checkin_date))) ∧
    (∀ row ∈ upcoming_strategy_load db today, row.status = "Upcoming") := by
  constructor
  · intro b hb
    constructor
    · rintro ⟨row, hrow, hid⟩
      unfold upcoming_strategy_load order_by_checkin_desc at hrow
      rw [List.mem_insertionSort] at hrow
      obtain ⟨x, hx, rfl⟩ := List.mem_map.1 hrow
      obtain ⟨hxj, hxf⟩ := List.mem_filter.1 hx
      have hx1 : x.1 ∈ db.bookings := by
        unfold join_rows at hxj
        obtain ⟨b', hb', hrest⟩ := List.mem_flatMap.1 hxj
        obtain ⟨c', hc', hrest2⟩ := List.mem_flatMap.1 hrest
        obtain ⟨r', hr', heq⟩ := List.mem_map.1 hrest2
        rw [← heq]
        exact hb'
      have hxb : x.1 = b := List.inj_on_of_nodup_map hids hx1 hb hid
      rw [← hxb]
      simp only [Bool.and_eq_true, beq_iff_eq, decide_eq_true_eq] at hxf
      exact hxf
    · rintro ⟨hstat, hupc⟩
      obtain ⟨⟨c, hc, hcid⟩, r, hrm, hrt⟩ := href b hb
      refine ⟨enrich b c r "Upcoming", ?_, rfl⟩
      unfold upcoming_strategy_load order_by_checkin_desc
      rw [List.mem_insertionSort]
      apply List.mem_map.2
      refine ⟨(b, c, r), List.mem_filter.2 ⟨?_, ?_⟩, rfl⟩
      · unfold join_rows
        apply List.mem_flatMap.2
        refine ⟨b, hb, ?_⟩
        apply List.mem_flatMap.2
        refine ⟨c, List.mem_filter.2 ⟨hc, by simp [hcid]⟩, ?_⟩
        apply List.mem_map.2
        exact ⟨r, List.mem_filter.2 ⟨hrm, by simp [hrt]⟩, rfl⟩
      · simp [hstat, hupc]
  · intro row hrow
    unfold upcoming_strategy_load order_by_checkin_desc at hrow
    rw [List.mem_insertionSort] at hrow
    obtain ⟨x, hx, rfl⟩ := List.mem_map.1 hrow
    rfl

/-- C8 (witness): the amended theorem applied to `upcoming_db`, whose single
active booking (id 1, checkin day 5) is upcoming as of day 0. -/
theorem C8_upcoming_filter_witness :
    (∃ row ∈ upcoming_strategy_load upcoming_db 0,
        row.booking_id = (⟨1, some 1, "Single", 5, 8, "active"⟩ : BookingRow).id) ↔
      ((⟨1, some 1, "Single", 5, 8, "active"⟩ : BookingRow).status = "active" ∧
        (0 : Date) < (⟨1, some 1, "Single", 5, 8, "active"⟩ : BookingRow).checkin_date) :=
  (C8_upcoming_filter_exact upcoming_db 0 (by decide) (by decide)).1
    ⟨1, some 1, "Single", 5, 8, "active"⟩ (by decide)

/-- C9: whenever the underlying fetch fails during records loading — whether
the SQL error swallowed inside `fetch_query` (which logs it and returns
`None`) or an exception caught by `load_records`' own `except` (which prints
it) — the pipeline raises nothing: a diagnostic line is emitted and every
attached observer's `update` is called with the empty list. -/
theorem C9_load_failure_notifies_empty (k : FilterKind) (db : DBState)
    (today : Date) (observers : List Nat) (outcome : FetchOutcome)
    (h : outcome ≠ FetchOutcome.ok) :
    ∃ msg, load_records k db today observers outcome =
      RecordsEvent.log msg :: notify_records observers [] := by
  cases outcome with
  | ok => exact absurd rfl h
  | sqlError => exact ⟨"Error fetching query", rfl⟩
  | raised => exact ⟨"Error loading records", rfl⟩

/-- C9 (witness): the theorem applied to the `upcoming` filter over the
seeded store with two observers and a SQL error in the fetch. -/
theorem C9_load_failure_witness :
    ∃ msg, load_records FilterKind.upcoming seed_db 0 [0, 1] FetchOutcome.sqlError =
      RecordsEvent.log msg :: notify_records [0, 1] [] :=
  C9_load_failure_notifies_empty FilterKind.upcoming seed_db 0 [0, 1]
    FetchOutcome.sqlError (by decide)

end HotelGui
